import Mathlib

/-!
Shallow embedding of `src/components/PDFViewer.tsx` (repository rbyers87/offduty1).

The component is a field-placement editor over a rendered PDF page.  We model:
  * the `PDFField` record (`src/types`), with attribute values as a sum of
    string and number, since the inspector writes `e.target.value` (a string)
    into every attribute, numeric ones included;
  * the React component state declared on lines 16-21
    (`numPages`, `pageNumber`, `fields`, `selectedField`, `isEditing`,
    plus `containerRef`);
  * each event handler as a pure state transformer, with browser inputs
    (click coordinates, the container's bounding rect, the value produced by
    `Math.random().toString(36).substring(2, 15)`, remote-call outcomes)
    passed as explicit arguments;
  * the remote store (`supabase.from('pdf_fields')`) as a list of rows, with
    each call's success/failure an oracle argument;
  * JavaScript name resolution for the single free identifier
    `setIsUploading` used by `handleSaveFields` (line 92): the component and
    module scopes are embedded as the list of names they actually declare,
    and an unresolved name aborts the handler with a ReferenceError before
    any later statement runs.
-/

/-- A JavaScript value stored in a field attribute: the inspector inputs
yield strings, while `handleAddField` writes numbers. -/
inductive FieldValue where
  | str (s : String)
  | num (n : Int)
deriving DecidableEq, Repr

/-- The `PDFField` record: client id, owning template id, and the seven
attributes bound by the inspector form (`name`, `type`, `x`, `y`, `width`,
`height`, `page`). -/
structure PDFField where
  id : String
  template_id : String
  name : FieldValue
  type : FieldValue
  x : FieldValue
  y : FieldValue
  width : FieldValue
  height : FieldValue
  page : FieldValue
deriving DecidableEq, Repr

/-- The attribute keys the inspector form passes to `handleFieldChange`
(lines 163, 169, 179, 186, 193, 200, 207 of the source). -/
inductive FieldKey where
  | name | type | x | y | width | height | page
deriving DecidableEq, Repr

/-- Read one inspector-bound attribute of a field. -/
def getAttr (f : PDFField) : FieldKey → FieldValue
  | .name => f.name
  | .type => f.type
  | .x => f.x
  | .y => f.y
  | .width => f.width
  | .height => f.height
  | .page => f.page

/-- The spread update of `handleFieldChange` line 79: overwrite one inspector-bound attribute. -/
def setAttr (f : PDFField) : FieldKey → FieldValue → PDFField
  | .name, v => { f with name := v }
  | .type, v => { f with type := v }
  | .x, v => { f with x := v }
  | .y, v => { f with y := v }
  | .width, v => { f with width := v }
  | .height, v => { f with height := v }
  | .page, v => { f with page := v }

/-- The component state declared by the `useState` calls on lines 16-20. -/
structure ViewerState where
  numPages : Int
  pageNumber : Int
  fields : List PDFField
  selectedField : Option PDFField
  isEditing : Bool
deriving DecidableEq, Repr

/-- The bounding client rect of the container `div` (only `left` and `top`
are read by `handleAddField`). -/
structure Rect where
  left : Int
  top : Int
deriving DecidableEq, Repr

/-- Handler `handleAddField` (lines 49-69): a click on the container at viewport
coordinates `(clientX, clientY)`.  If the ref is empty nothing happens;
otherwise a new field is appended at the surface-relative coordinates, with
name "New Field", type "editable", size 100×20, the current page number and
the current template id; the new field becomes selected and editing opens.
`genId` is the value of `Math.random().toString(36).substring(2, 15)`. -/
def handleAddField (st : ViewerState) (templateId : String)
    (container : Option Rect) (clientX clientY : Int) (genId : String) :
    ViewerState :=
  match container with
  | none => st
  | some rect =>
    let x := clientX - rect.left
    let y := clientY - rect.top
    let newField : PDFField :=
      { id := genId
        template_id := templateId
        name := .str "New Field"
        type := .str "editable"
        x := .num x
        y := .num y
        width := .num 100
        height := .num 20
        page := .num st.pageNumber }
    { st with fields := st.fields ++ [newField]
              selectedField := some newField
              isEditing := true }

/-- Handler `handleFieldClick` (lines 71-74): select the clicked field and open the
inspector. -/
def handleFieldClick (st : ViewerState) (field : PDFField) : ViewerState :=
  { st with selectedField := some field, isEditing := true }

/-- Handler `handleFieldChange` (lines 76-83): overwrite attribute `key` with the
input's current value (`e.target.value`, always a string) on every field
whose id equals `fieldId`, leaving the others as they are. -/
def handleFieldChange (st : ViewerState) (fieldId : String) (key : FieldKey)
    (value : String) : ViewerState :=
  { st with
      fields := st.fields.map fun field =>
        if field.id = fieldId then setAttr field key (.str value) else field }

/-- Handler `handleFieldDelete` (lines 85-89): drop every field whose id equals
`fieldId`, clear the selection and close the inspector. -/
def handleFieldDelete (st : ViewerState) (fieldId : String) : ViewerState :=
  { st with
      fields := st.fields.filter fun field => field.id ≠ fieldId
      selectedField := none
      isEditing := false }

/-- Handler `handlePageChange` (lines 45-47): store the requested page number,
without any clamping of its own. -/
def handlePageChange (st : ViewerState) (newPage : Int) : ViewerState :=
  { st with pageNumber := newPage }

/-! ## Remote store and the two asynchronous handlers -/

/-- A row of the `pdf_fields` table as sent by the insert on lines 105-109:
the spread of the field with `template_id` overridden and `id: undefined`
(the client id is discarded; the store assigns its own key). -/
structure FieldRow where
  template_id : String
  name : FieldValue
  type : FieldValue
  x : FieldValue
  y : FieldValue
  width : FieldValue
  height : FieldValue
  page : FieldValue
deriving DecidableEq, Repr

/-- The row mapping `field => ({ ...field, template_id: template.id,
id: undefined })` of lines 105-109. -/
def stripId (templateId : String) (f : PDFField) : FieldRow :=
  { template_id := templateId
    name := f.name
    type := f.type
    x := f.x
    y := f.y
    width := f.width
    height := f.height
    page := f.page }

/-- The remote `pdf_fields` table. -/
abbrev Store := List FieldRow

/-- Outcome of one supabase call, as observed through the destructured
`error` member: `ok` means `error` is null, `fail msg` means `error` is an
object whose `message` is `msg`. -/
inductive RemoteOutcome where
  | ok
  | fail (msg : String)
deriving DecidableEq, Repr

/-- A toast notification (`react-hot-toast`). -/
inductive Toast where
  | success (msg : String)
  | error (msg : String)
deriving DecidableEq, Repr

/-- A remote call issued against the `pdf_fields` table. -/
inductive RemoteCall where
  | selectByTemplate (templateId : String)
  | deleteByTemplate (templateId : String)
  | insertRows (rows : List FieldRow)
deriving DecidableEq, Repr

/-- Observable outcome of running `handleSaveFields`: the remote calls
issued in order, the resulting store contents, the toasts shown, and the
uncaught JavaScript error, if any, that rejected the handler's promise. -/
structure SaveOutcome where
  calls : List RemoteCall
  store : Store
  toasts : List Toast
  uncaughtError : Option String
deriving DecidableEq, Repr

/-- Handler `loadFields` (lines 27-39), applied to the resolved select call.
On success `setFields(data || [])` replaces the collection (a null `data`
yields the empty list); on failure the thrown error is caught and
`toast.error(error.message)` is shown while the state is left untouched. -/
def loadFields (st : ViewerState) (result : RemoteOutcome)
    (data : Option (List PDFField)) : ViewerState × List Toast :=
  match result with
  | .ok => ({ st with fields := data.getD [] }, [])
  | .fail msg => (st, [Toast.error msg])

/-- The `try`/`catch`/`finally` body of `handleSaveFields` (lines 93-118):
a delete scoped to the template id, then — only if the delete reported no
error — an insert of the in-memory fields with client ids stripped; any
reported error is thrown, caught, and surfaced as `toast.error`.  A failed
delete removes nothing and a failed insert adds nothing.  The component
state is returned unchanged: the handler calls none of the state setters.
(The `finally` clause, like line 92, names the undeclared `setIsUploading`;
it runs after every effect modelled here.) -/
def handleSaveFieldsBody (st : ViewerState) (templateId : String)
    (store : Store) (deleteOutcome insertOutcome : RemoteOutcome) :
    ViewerState × SaveOutcome :=
  match deleteOutcome with
  | .fail msg =>
      (st, { calls := [.deleteByTemplate templateId]
             store := store
             toasts := [Toast.error msg]
             uncaughtError := none })
  | .ok =>
      let store' : Store :=
        store.filter fun row => row.template_id ≠ templateId
      let rows := st.fields.map (stripId templateId)
      match insertOutcome with
      | .fail msg =>
          (st, { calls := [.deleteByTemplate templateId, .insertRows rows]
                 store := store'
                 toasts := [Toast.error msg]
                 uncaughtError := none })
      | .ok =>
          (st, { calls := [.deleteByTemplate templateId, .insertRows rows]
                 store := store' ++ rows
                 toasts := [Toast.success "Fields saved successfully"]
                 uncaughtError := none })

/-- Every name in scope inside `PDFViewer` against which the identifier
`setIsUploading` on line 92 could resolve: the module-level imports and
declarations (lines 1-13), the destructured prop, the `useState` and
`useRef` bindings (lines 16-21), and the handler declarations themselves.
No binding named `isUploading` or `setIsUploading` exists anywhere in the
file. -/
def declaredNames : List String :=
  ["React", "useState", "useEffect", "useRef", "Document", "Page", "pdfjs",
   "PDFTemplate", "PDFField", "Pencil", "Trash2", "Plus", "toast",
   "supabase", "PDFViewer", "template",
   "numPages", "setNumPages", "pageNumber", "setPageNumber",
   "fields", "setFields", "selectedField", "setSelectedField",
   "isEditing", "setIsEditing", "containerRef",
   "loadFields", "onDocumentLoadSuccess", "handlePageChange",
   "handleAddField", "handleFieldClick", "handleFieldChange",
   "handleFieldDelete", "handleSaveFields"]

/-- Handler `handleSaveFields` (lines 91-119) in full.  Its first statement,
`setIsUploading(true)` (line 92), precedes the `try` block; JavaScript
evaluates the identifier `setIsUploading` before any remote call is made,
and an unresolved identifier throws a ReferenceError that, being outside
the `try`, rejects the async handler's promise uncaught.  Only if the name
resolved would the `try` body (`handleSaveFieldsBody`) run. -/
def handleSaveFields (st : ViewerState) (templateId : String)
    (store : Store) (deleteOutcome insertOutcome : RemoteOutcome) :
    ViewerState × SaveOutcome :=
  if declaredNames.contains "setIsUploading" then
    handleSaveFieldsBody st templateId store deleteOutcome insertOutcome
  else
    (st, { calls := []
           store := store
           toasts := []
           uncaughtError := some "ReferenceError: setIsUploading is not defined" })

/-! ## Rendering: the overlay layer and the navigation controls -/

/-- One rendered field region: the `div` of lines 133-145, keyed by the
field's id and styled with `left: field.x`, `top: field.y`,
`width: field.width`, `height: field.height`. -/
structure Region where
  fieldId : String
  left : FieldValue
  top : FieldValue
  width : FieldValue
  height : FieldValue
deriving DecidableEq, Repr

/-- The region rendered for one field. -/
def regionOf (f : PDFField) : Region :=
  { fieldId := f.id, left := f.x, top := f.y, width := f.width
    height := f.height }

/-- The overlay (lines 132-145): `fields.map((field) => <div ...>)`.
The source iterates over the whole collection; no filter on `field.page`
appears anywhere in the render. -/
def renderOverlay (st : ViewerState) : List Region :=
  st.fields.map regionOf

/-- A click on an existing field's rendered region.  The region `div`
(line 135) runs `handleFieldClick(field)`; its `onClick` does not call
`stopPropagation`, so the event bubbles to the enclosing container `div`
(line 127), whose `onClick` is `handleAddField` — which then also runs, on
the same click coordinates. -/
def clickOnFieldRegion (st : ViewerState) (field : PDFField)
    (templateId : String) (container : Option Rect) (clientX clientY : Int)
    (genId : String) : ViewerState :=
  handleAddField (handleFieldClick st field) templateId container
    clientX clientY genId

/-- The condition `disabled={pageNumber <= 1}` on the Previous button
(line 219). -/
def prevDisabled (st : ViewerState) : Bool :=
  st.pageNumber ≤ 1

/-- The condition `disabled={pageNumber >= numPages}` on the Next button
(line 229). -/
def nextDisabled (st : ViewerState) : Bool :=
  st.pageNumber ≥ st.numPages

/-- Clicking the Previous button: a disabled button fires no click handler;
otherwise `handlePageChange(pageNumber - 1)` (line 218). -/
def clickPrev (st : ViewerState) : ViewerState :=
  if prevDisabled st then st else handlePageChange st (st.pageNumber - 1)

/-- Clicking the Next button: a disabled button fires no click handler;
otherwise `handlePageChange(pageNumber + 1)` (line 228). -/
def clickNext (st : ViewerState) : ViewerState :=
  if nextDisabled st then st else handlePageChange st (st.pageNumber + 1)

/-- One click on either navigation control. -/
inductive NavClick where
  | prev
  | next
deriving DecidableEq, Repr

/-- Run a sequence of navigation clicks. -/
def navRun (st : ViewerState) : List NavClick → ViewerState
  | [] => st
  | .prev :: rest => navRun (clickPrev st) rest
  | .next :: rest => navRun (clickNext st) rest

/-! ## Editing actions for the uniqueness invariant -/

/-- One user action on the in-memory collection: a create click on the
surface, an inspector attribute edit, or an inspector delete. -/
inductive EditAction where
  | create (templateId : String) (container : Option Rect)
      (clientX clientY : Int) (genId : String)
  | edit (fieldId : String) (key : FieldKey) (value : String)
  | delete (fieldId : String)
deriving DecidableEq, Repr

/-- Apply one action through the corresponding handler. -/
def applyAction (st : ViewerState) : EditAction → ViewerState
  | .create templateId container clientX clientY genId =>
      handleAddField st templateId container clientX clientY genId
  | .edit fieldId key value => handleFieldChange st fieldId key value
  | .delete fieldId => handleFieldDelete st fieldId

/-- Run a sequence of actions. -/
def runActions (st : ViewerState) : List EditAction → ViewerState
  | [] => st
  | a :: rest => runActions (applyAction st a) rest

/-- The identifiers currently in the collection. -/
def fieldIds (st : ViewerState) : List String :=
  st.fields.map (·.id)

/-- Identifier uniqueness: pairwise-distinct ids. -/
def idsUnique (st : ViewerState) : Prop :=
  (fieldIds st).Nodup

instance (st : ViewerState) : Decidable (idsUnique st) := by
  unfold idsUnique; infer_instance

/-- Whether one action's generated identifier (if it is a create that will
actually add a field) is fresh for the current collection. -/
def freshOk (st : ViewerState) : EditAction → Bool
  | .create _ (some _) _ _ genId => !(fieldIds st).contains genId
  | _ => true

/-- Whether every create in the run generates an identifier fresh with
respect to the collection at the moment of creation. -/
def createsFresh (st : ViewerState) : List EditAction → Bool
  | [] => true
  | a :: rest => freshOk st a && createsFresh (applyAction st a) rest

/-! ## Concrete example inputs -/

/-- A concrete container bounding rect. -/
def exRect : Rect := { left := 5, top := 8 }

/-- A concrete field on page 2. -/
def exField : PDFField :=
  { id := "a2"
    template_id := "t1"
    name := .str "Name"
    type := .str "prefilled"
    x := .num 40
    y := .num 60
    width := .num 100
    height := .num 20
    page := .num 2 }

/-- A concrete component state: page 1 of 3 displayed, one field (which is
on page 2) in memory. -/
def exState : ViewerState :=
  { numPages := 3
    pageNumber := 1
    fields := [exField]
    selectedField := none
    isEditing := false }

/-- A concrete remote-store content: one row for template "t1" and one for
an unrelated template. -/
def exStore : Store :=
  [stripId "t1" exField, stripId "other" exField]

/-! ## Claims -/

/-- C4: a click on the underlying surface while the container rect is
available appends exactly one new field whose coordinates are the click
position relative to the surface's bounding box, with width 100, height 20,
kind "editable", name "New Field", the current page number and the current
template id; the new field becomes selected and edit mode opens. -/
theorem addField_creates_default_field (st : ViewerState)
    (templateId : String) (rect : Rect) (clientX clientY : Int)
    (genId : String) :
    ∃ f : PDFField,
      (handleAddField st templateId (some rect) clientX clientY genId).fields
          = st.fields ++ [f] ∧
      f.x = .num (clientX - rect.left) ∧
      f.y = .num (clientY - rect.top) ∧
      f.width = .num 100 ∧
      f.height = .num 20 ∧
      f.type = .str "editable" ∧
      f.name = .str "New Field" ∧
      f.page = .num st.pageNumber ∧
      f.template_id = templateId ∧
      (handleAddField st templateId (some rect) clientX clientY
          genId).selectedField = some f ∧
      (handleAddField st templateId (some rect) clientX clientY
          genId).isEditing = true :=
  ⟨_, rfl, rfl, rfl, rfl, rfl, rfl, rfl, rfl, rfl, rfl, rfl⟩

/-- The identifier `setIsUploading` resolves against no declared binding, so every run of
`handleSaveFields` takes the ReferenceError branch. -/
theorem handleSaveFields_eq (st : ViewerState) (templateId : String)
    (store : Store) (deleteOutcome insertOutcome : RemoteOutcome) :
    handleSaveFields st templateId store deleteOutcome insertOutcome =
      (st, { calls := []
             store := store
             toasts := []
             uncaughtError :=
               some "ReferenceError: setIsUploading is not defined" }) := by
  unfold handleSaveFields
  rw [if_neg]
  decide

/-- C2: `handleSaveFields` evaluates the identifier `setIsUploading` before
any remote call, no binding of that name is declared anywhere in the
component or module, and consequently every invocation rejects with a
ReferenceError having issued no remote call and shown no notification,
leaving the store and the component state untouched. -/
theorem saveFields_crashes_on_undeclared_setter :
    "setIsUploading" ∉ declaredNames ∧
    ∀ (st : ViewerState) (templateId : String) (store : Store)
      (deleteOutcome insertOutcome : RemoteOutcome),
      (handleSaveFields st templateId store deleteOutcome
          insertOutcome).2.calls = [] ∧
      (handleSaveFields st templateId store deleteOutcome
          insertOutcome).2.uncaughtError
          = some "ReferenceError: setIsUploading is not defined" ∧
      (handleSaveFields st templateId store deleteOutcome
          insertOutcome).2.toasts = [] ∧
      (handleSaveFields st templateId store deleteOutcome
          insertOutcome).2.store = store ∧
      (handleSaveFields st templateId store deleteOutcome
          insertOutcome).1 = st := by
  refine ⟨by decide, ?_⟩
  intro st templateId store deleteOutcome insertOutcome
  simp [handleSaveFields_eq]

/-- C1 (evaluation at the failing input): at a concrete state, template and
store, with both remote outcomes available as successes, the save operation
issues no delete call at all — its first action is the reference to the
undeclared `setIsUploading`, which rejects the handler — so the
delete-then-insert contract is never performed. -/
theorem saveFields_never_issues_delete :
    (handleSaveFields exState "t1" exStore .ok .ok).2.calls = [] ∧
    (handleSaveFields exState "t1" exStore .ok .ok).2.uncaughtError
        = some "ReferenceError: setIsUploading is not defined" ∧
    (handleSaveFields exState "t1" exStore .ok .ok).2.store = exStore := by
  decide

/-- C9: every remote failure is caught and surfaced as a toast carrying the
error's message, and leaves the in-memory state unchanged: a failed load
keeps the previous field collection; the save handler never alters the
component state however far it gets; and within the save's try block a
delete failure or an insert failure each produce exactly the error toast,
with no state change (a delete failure also leaves the store unchanged and
prevents the insert). -/
theorem remote_failures_toast_and_preserve_state :
    (∀ (st : ViewerState) (msg : String) (data : Option (List PDFField)),
        loadFields st (.fail msg) data = (st, [Toast.error msg])) ∧
    (∀ (st : ViewerState) (templateId : String) (store : Store)
        (deleteOutcome insertOutcome : RemoteOutcome),
        (handleSaveFields st templateId store deleteOutcome
            insertOutcome).1 = st) ∧
    (∀ (st : ViewerState) (templateId : String) (store : Store)
        (msg : String) (insertOutcome : RemoteOutcome),
        (handleSaveFieldsBody st templateId store (.fail msg)
            insertOutcome).2.toasts = [Toast.error msg] ∧
        (handleSaveFieldsBody st templateId store (.fail msg)
            insertOutcome).2.store = store ∧
        (handleSaveFieldsBody st templateId store (.fail msg)
            insertOutcome).2.calls = [.deleteByTemplate templateId] ∧
        (handleSaveFieldsBody st templateId store (.fail msg)
            insertOutcome).1 = st) ∧
    (∀ (st : ViewerState) (templateId : String) (store : Store)
        (msg : String),
        (handleSaveFieldsBody st templateId store .ok
            (.fail msg)).2.toasts = [Toast.error msg] ∧
        (handleSaveFieldsBody st templateId store .ok (.fail msg)).1 = st) := by
  refine ⟨fun st msg data => rfl, ?_, ?_, ?_⟩
  · intro st templateId store deleteOutcome insertOutcome
    rw [handleSaveFields_eq]
  · intro st templateId store msg insertOutcome
    exact ⟨rfl, rfl, rfl, rfl⟩
  · intro st templateId store msg
    exact ⟨rfl, rfl⟩

/-- C7 (counterexample): the overlay's `fields.map` carries no page filter,
so with page 1 displayed the region of a field whose `page` attribute is 2
is still rendered. -/
theorem overlay_renders_other_page_field :
    exState.pageNumber = 1 ∧
    exField.page = .num 2 ∧
    exField ∈ exState.fields ∧
    exField.page ≠ .num exState.pageNumber ∧
    regionOf exField ∈ renderOverlay exState := by
  decide

/-- C7 (amended): the overlay renders exactly one clickable region per
field of the in-memory collection — regardless of the field's page
attribute — positioned at the field's stored x/y offset and sized to its
stored width/height, in collection order. -/
theorem overlay_renders_every_field (st : ViewerState) :
    (renderOverlay st).length = st.fields.length ∧
    (∀ f ∈ st.fields, regionOf f ∈ renderOverlay st) ∧
    (∀ r ∈ renderOverlay st, ∃ f ∈ st.fields, regionOf f = r) ∧
    ∀ i : Nat, (renderOverlay st)[i]? = (st.fields[i]?).map regionOf := by
  refine ⟨List.length_map _ _, ?_, ?_, ?_⟩
  · intro f hf
    exact List.mem_map_of_mem _ hf
  · intro r hr
    simpa [renderOverlay] using hr
  · intro i
    simp [renderOverlay]

/-- C7 amended-claim witness at a concrete state. -/
theorem overlay_renders_every_field_witness :
    regionOf exField ∈ renderOverlay exState :=
  (overlay_renders_every_field exState).2.1 exField (by decide)

/-- C8 (evaluation at the failing input): a click on an existing field's
rendered region runs `handleFieldClick` and then — the region's `onClick`
never stopping propagation — bubbles to the container's `handleAddField`,
so the click appends a new field to the collection and the selection ends
on the newly created field rather than the clicked one. -/
theorem field_click_bubbles_and_creates_field :
    exState.fields.length = 1 ∧
    (clickOnFieldRegion exState exField "t1" (some exRect) 50 70
        "zz9").fields.length = 2 ∧
    (clickOnFieldRegion exState exField "t1" (some exRect) 50 70
        "zz9").selectedField ≠ some exField := by
  decide

/-- C3 (counterexample): `handleAddField` performs no uniqueness check on
the generated identifier; a create whose generated id collides with an
existing field's id ("a2") leaves the collection with a duplicate
identifier. -/
theorem create_with_colliding_id_breaks_uniqueness :
    idsUnique exState ∧
    ¬ idsUnique (runActions exState
        [.create "t1" (some exRect) 10 10 "a2"]) := by
  exact ⟨by decide, by decide⟩

/-- Updating via `setAttr` never touches the client identifier: no inspector key maps to
`id`. -/
theorem setAttr_id (f : PDFField) (k : FieldKey) (v : FieldValue) :
    (setAttr f k v).id = f.id := by
  cases k <;> rfl

/-- Updating via `setAttr` never touches the template identifier. -/
theorem setAttr_template_id (f : PDFField) (k : FieldKey) (v : FieldValue) :
    (setAttr f k v).template_id = f.template_id := by
  cases k <;> rfl

/-- Updating via `setAttr` writes the requested attribute. -/
theorem getAttr_setAttr_same (f : PDFField) (k : FieldKey) (v : FieldValue) :
    getAttr (setAttr f k v) k = v := by
  cases k <;> rfl

/-- Updating via `setAttr` leaves every other attribute as it was. -/
theorem getAttr_setAttr_ne (f : PDFField) (k k' : FieldKey) (v : FieldValue)
    (h : k' ≠ k) : getAttr (setAttr f k v) k' = getAttr f k' := by
  cases k <;> cases k' <;> first
    | rfl
    | exact absurd rfl h

/-- An inspector edit leaves the list of identifiers untouched. -/
theorem fieldIds_handleFieldChange (st : ViewerState) (fieldId : String)
    (key : FieldKey) (value : String) :
    fieldIds (handleFieldChange st fieldId key value) = fieldIds st := by
  unfold fieldIds handleFieldChange
  rw [List.map_map]
  apply List.map_congr_left
  intro f _
  by_cases h : f.id = fieldId <;> simp [h, setAttr_id]

/-- A delete keeps identifiers pairwise distinct: the remaining ids form a
sublist of the original ids. -/
theorem idsUnique_handleFieldDelete (st : ViewerState) (fieldId : String)
    (h : idsUnique st) : idsUnique (handleFieldDelete st fieldId) := by
  unfold idsUnique fieldIds handleFieldDelete at *
  exact h.sublist ((List.filter_sublist _).map _)

/-- A create with the container rect available appends exactly the
generated identifier to the id list. -/
theorem fieldIds_handleAddField (st : ViewerState) (templateId : String)
    (rect : Rect) (clientX clientY : Int) (genId : String) :
    fieldIds (handleAddField st templateId (some rect) clientX clientY genId)
      = fieldIds st ++ [genId] := by
  simp [fieldIds, handleAddField]

/-- C3 (amended): starting from any collection with pairwise-distinct
identifiers, every sequence of create, inspector-edit and delete actions in
which each create's generated identifier is fresh for the collection at the
moment of creation preserves identifier uniqueness. -/
theorem ids_unique_preserved (st : ViewerState) (as : List EditAction)
    (h : idsUnique st) (hf : createsFresh st as = true) :
    idsUnique (runActions st as) := by
  induction as generalizing st with
  | nil => exact h
  | cons a rest ih =>
    rw [runActions]
    rw [createsFresh, Bool.and_eq_true] at hf
    refine ih (applyAction st a) ?_ hf.2
    have hfa := hf.1
    cases a with
    | create templateId container clientX clientY genId =>
      cases container with
      | none => simpa [applyAction, handleAddField] using h
      | some rect =>
        have hg : genId ∉ fieldIds st := by
          simp [freshOk] at hfa
          exact hfa
        show idsUnique _
        unfold idsUnique
        rw [show applyAction st (.create templateId (some rect) clientX
              clientY genId) = handleAddField st templateId (some rect)
              clientX clientY genId from rfl,
            fieldIds_handleAddField]
        simp [List.nodup_append]
        exact ⟨h, fun hmem => hg hmem⟩
    | edit fieldId key value =>
      show idsUnique _
      unfold idsUnique
      rw [show applyAction st (.edit fieldId key value)
            = handleFieldChange st fieldId key value from rfl,
          fieldIds_handleFieldChange]
      exact h
    | delete fieldId =>
      exact idsUnique_handleFieldDelete st fieldId h

/-- C3 amended-claim witness: a concrete fresh run keeps ids unique. -/
theorem ids_unique_preserved_witness :
    idsUnique (runActions exState
      [.create "t1" (some exRect) 10 10 "b7",
       .edit "a2" .name "renamed",
       .delete "b7"]) :=
  ids_unique_preserved exState
    [.create "t1" (some exRect) 10 10 "b7",
     .edit "a2" .name "renamed",
     .delete "b7"] (by decide) (by decide)

/-- With pairwise-distinct ids, filtering out one field's id removes
exactly the entry at its position and nothing else. -/
theorem filter_ne_eq_eraseIdx :
    ∀ (l : List PDFField) (i : Nat) (hi : i < l.length),
      (l.map (·.id)).Nodup →
      l.filter (fun f => f.id ≠ l[i].id) = l.eraseIdx i := by
  intro l
  induction l with
  | nil => intro i hi; simp at hi
  | cons hd tl ih =>
    intro i hi hnd
    rw [List.map_cons, List.nodup_cons] at hnd
    obtain ⟨hhd, htl⟩ := hnd
    cases i with
    | zero =>
      simp only [List.getElem_cons_zero, List.eraseIdx_cons_zero]
      rw [List.filter_cons, if_neg (by simp)]
      apply List.filter_eq_self.mpr
      intro f hf
      simp only [ne_eq, decide_eq_true_eq]
      intro heq
      exact hhd (heq ▸ List.mem_map_of_mem _ hf)
    | succ j =>
      have hj : j < tl.length := by
        simpa using Nat.lt_of_succ_lt_succ hi
      simp only [List.getElem_cons_succ, List.eraseIdx_cons_succ]
      have hne : hd.id ≠ tl[j].id := by
        intro heq
        exact hhd (heq ▸ List.mem_map_of_mem _ (tl.getElem_mem hj))
      rw [List.filter_cons, if_pos (by simp [hne])]
      exact congrArg (hd :: ·) (ih j hj htl)

/-- C6: with pairwise-distinct identifiers, deleting the field at position
`i` removes exactly that entry (the rest of the collection is unchanged, in
order), clears the selection and exits edit mode. -/
theorem fieldDelete_removes_exactly_one (st : ViewerState) (i : Nat)
    (hi : i < st.fields.length) (hnd : (st.fields.map (·.id)).Nodup) :
    (handleFieldDelete st st.fields[i].id).fields
        = st.fields.eraseIdx i ∧
    (handleFieldDelete st st.fields[i].id).fields.length + 1
        = st.fields.length ∧
    (handleFieldDelete st st.fields[i].id).selectedField = none ∧
    (handleFieldDelete st st.fields[i].id).isEditing = false := by
  have hf : (handleFieldDelete st st.fields[i].id).fields
      = st.fields.eraseIdx i := filter_ne_eq_eraseIdx st.fields i hi hnd
  refine ⟨hf, ?_, rfl, rfl⟩
  rw [hf, List.length_eraseIdx_of_lt hi]
  omega

/-- C6 witness at the concrete one-field state. -/
theorem fieldDelete_removes_exactly_one_witness :
    (handleFieldDelete exState exState.fields[0].id).fields
        = exState.fields.eraseIdx 0 ∧
    (handleFieldDelete exState exState.fields[0].id).fields.length + 1
        = exState.fields.length ∧
    (handleFieldDelete exState exState.fields[0].id).selectedField = none ∧
    (handleFieldDelete exState exState.fields[0].id).isEditing = false :=
  fieldDelete_removes_exactly_one exState 0 (by decide) (by decide)

/-- C5: with pairwise-distinct identifiers, an inspector edit of attribute
`key` with value `v` on the field at position `i` rewrites exactly that
field's `key` attribute to the input string; every other position of the
collection is untouched, the length and order are unchanged, and the
edited field keeps its other attributes, its id and its template id. -/
theorem fieldChange_updates_only_target (st : ViewerState) (i : Nat)
    (hi : i < st.fields.length) (key : FieldKey) (v : String)
    (hnd : (st.fields.map (·.id)).Nodup) :
    (handleFieldChange st st.fields[i].id key v).fields.length
        = st.fields.length ∧
    (handleFieldChange st st.fields[i].id key v).fields[i]?
        = some (setAttr st.fields[i] key (.str v)) ∧
    (∀ j : Nat, j ≠ i →
        (handleFieldChange st st.fields[i].id key v).fields[j]?
          = st.fields[j]?) ∧
    ((handleFieldChange st st.fields[i].id key v).fields[i]?).map
        (fun f => getAttr f key) = some (.str v) ∧
    (∀ k : FieldKey, k ≠ key →
        ((handleFieldChange st st.fields[i].id key v).fields[i]?).map
            (fun f => getAttr f k)
          = (st.fields[i]?).map (fun f => getAttr f k)) ∧
    ((handleFieldChange st st.fields[i].id key v).fields[i]?).map (·.id)
        = (st.fields[i]?).map (·.id) ∧
    ((handleFieldChange st st.fields[i].id key v).fields[i]?).map
        (·.template_id) = (st.fields[i]?).map (·.template_id) := by
  have hmap : (handleFieldChange st st.fields[i].id key v).fields
      = st.fields.map (fun field =>
          if field.id = st.fields[i].id then setAttr field key (.str v)
          else field) := rfl
  have hidx : (handleFieldChange st st.fields[i].id key v).fields[i]?
      = some (setAttr st.fields[i] key (.str v)) := by
    rw [hmap, List.getElem?_map, List.getElem?_eq_getElem hi]
    simp
  have hother : ∀ j : Nat, j ≠ i →
      (handleFieldChange st st.fields[i].id key v).fields[j]?
        = st.fields[j]? := by
    intro j hji
    rw [hmap, List.getElem?_map]
    by_cases hj : j < st.fields.length
    · have hne : st.fields[j].id ≠ st.fields[i].id := by
        intro heq
        apply hji
        have hj2 : j < (st.fields.map (·.id)).length := by simpa using hj
        have hi2 : i < (st.fields.map (·.id)).length := by simpa using hi
        have hmj : (st.fields.map (·.id))[j] = st.fields[j].id :=
          List.getElem_map _
        have hmi : (st.fields.map (·.id))[i] = st.fields[i].id :=
          List.getElem_map _
        have : (st.fields.map (·.id))[j] = (st.fields.map (·.id))[i] := by
          rw [hmj, hmi]; exact heq
        exact hnd.getElem_inj_iff.mp this
      rw [List.getElem?_eq_getElem hj]
      simp [hne]
    · have hnone : st.fields[j]? = none := List.getElem?_eq_none (by omega)
      rw [hnone]
      rfl
  have hsome : st.fields[i]? = some st.fields[i] :=
    List.getElem?_eq_getElem hi
  refine ⟨List.length_map _ _, hidx, hother, ?_, ?_, ?_, ?_⟩
  · rw [hidx]
    simp [getAttr_setAttr_same]
  · intro k hk
    rw [hidx, hsome]
    simp [getAttr_setAttr_ne _ _ _ _ hk]
  · rw [hidx, hsome]
    simp [setAttr_id]
  · rw [hidx, hsome]
    simp [setAttr_template_id]

/-- C5 witness: editing the name of the single field of the concrete state. -/
theorem fieldChange_updates_only_target_witness :
    (handleFieldChange exState exState.fields[0].id .name "n2").fields.length
        = exState.fields.length ∧
    (handleFieldChange exState exState.fields[0].id .name "n2").fields[0]?
        = some (setAttr exState.fields[0] .name (.str "n2")) :=
  ⟨(fieldChange_updates_only_target exState 0 (by decide) .name "n2"
      (by decide)).1,
   (fieldChange_updates_only_target exState 0 (by decide) .name "n2"
      (by decide)).2.1⟩

/-- Navigation clicks never change the page count. -/
theorem navRun_numPages (clicks : List NavClick) :
    ∀ st : ViewerState, (navRun st clicks).numPages = st.numPages := by
  induction clicks with
  | nil => intro st; rfl
  | cons c rest ih =>
    intro st
    cases c with
    | prev =>
      rw [navRun, ih]
      unfold clickPrev
      split <;> rfl
    | next =>
      rw [navRun, ih]
      unfold clickNext
      split <;> rfl

/-- The page stays within `[1, numPages]` under any sequence of clicks on
the (enabled) navigation buttons. -/
theorem navRun_invariant (clicks : List NavClick) :
    ∀ st : ViewerState, 1 ≤ st.pageNumber → st.pageNumber ≤ st.numPages →
      1 ≤ (navRun st clicks).pageNumber ∧
      (navRun st clicks).pageNumber ≤ (navRun st clicks).numPages := by
  induction clicks with
  | nil => intro st h1 h2; exact ⟨h1, h2⟩
  | cons c rest ih =>
    intro st h1 h2
    cases c with
    | prev =>
      rw [navRun]
      unfold clickPrev prevDisabled
      split
      · exact ih st h1 h2
      · next hcond =>
        refine ih _ ?_ ?_ <;> simp_all [handlePageChange] <;> omega
    | next =>
      rw [navRun]
      unfold clickNext nextDisabled
      split
      · exact ih st h1 h2
      · next hcond =>
        refine ih _ ?_ ?_ <;> simp_all [handlePageChange] <;> omega

/-- C10: in any state whose current page lies in `[1, numPages]`, the
Previous button is disabled exactly on page 1, the Next button is disabled
exactly on the last page, and no sequence of clicks on the enabled
navigation controls ever drives the page outside `[1, numPages]`. -/
theorem nav_bounds (st : ViewerState) (h1 : 1 ≤ st.pageNumber)
    (h2 : st.pageNumber ≤ st.numPages) :
    (prevDisabled st = true ↔ st.pageNumber = 1) ∧
    (nextDisabled st = true ↔ st.pageNumber = st.numPages) ∧
    ∀ clicks : List NavClick,
      1 ≤ (navRun st clicks).pageNumber ∧
      (navRun st clicks).pageNumber ≤ (navRun st clicks).numPages := by
  refine ⟨?_, ?_, fun clicks => navRun_invariant clicks st h1 h2⟩
  · unfold prevDisabled
    constructor
    · intro h
      have := of_decide_eq_true h
      omega
    · intro h
      exact decide_eq_true (by omega)
  · unfold nextDisabled
    constructor
    · intro h
      have := of_decide_eq_true h
      omega
    · intro h
      exact decide_eq_true (by omega)

/-- C10 witness: the concrete state on page 1 of 3, with a concrete click
sequence. -/
theorem nav_bounds_witness :
    (prevDisabled exState = true ↔ exState.pageNumber = 1) ∧
    (1 ≤ (navRun exState [.next, .next, .next, .prev]).pageNumber ∧
      (navRun exState [.next, .next, .next, .prev]).pageNumber
        ≤ (navRun exState [.next, .next, .next, .prev]).numPages) :=
  ⟨(nav_bounds exState (by decide) (by decide)).1,
   (nav_bounds exState (by decide) (by decide)).2.2
     [.next, .next, .next, .prev]⟩
